import Mathlib

/-!
Shallow embedding of the module survey_condition_validation_option
(models/survey_question.py): the methods _compute_validation_required,
_validate_choice and _validate_date of the inherited survey.question model.

Conventions of the embedding:
* a Python date object is an Int counting days since 1970-01-01;
* a Python (naive) datetime object is an Int counting seconds since
  1970-01-01 00:00:00;
* Odoo record fields become fields of the Question structure; Selection
  fields are a String whose empty value stands for the falsy unset value,
  Char fields that may be unset become Option String, Date/Datetime fields
  become Option Int (none standing for the falsy unset value);
* the ambient clock and timezone (datetime.now(user_timezone) and its
  utcoffset) become an Env value: the local calendar date of the current
  instant and the utcoffset in seconds;
* a Python exception escaping the method is the error case of Except;
* calls to _logger.error become LogMsg values collected in a list;
* a returned dict is none (the empty dict) or some (id, msg) (the
  single-entry dict {self.id: msg}) and translated message templates are
  constructors of Msg carrying their interpolated or formatted parameters.
-/

deriving instance DecidableEq for Except

namespace Survey

/-- Question kinds of the survey module (the five kinds named by
_compute_validation_required plus other kinds a question can have). -/
inductive QType
  | char_box
  | numerical_box
  | date
  | datetime
  | multiple_choice
  | simple_choice
  | text_box
  | matrix
deriving DecidableEq

/-- User-facing validation messages: the custom validation_error_msg text or
one of the translated templates of the source, with their parameters. -/
inductive Msg
  | custom (text : String)
  | notADate
  | selectExact (min_value len_answer : Int)
  | selectBetween (min_value max_value len_answer : Int)
  | dateBetween (date_min_show date_max_show : String)
  | dateAfter (date_min_show : String)
  | dateBefore (date_max_show : String)
deriving DecidableEq

/-- Configuration-defect log lines emitted by _logger.error for an
unrecognized symbolic anchor value, carrying that value. -/
inductive LogMsg
  | missing_min_datetime_option (value : String)
  | missing_max_datetime_option (value : String)
  | missing_min_date_option (value : String)
  | missing_max_date_option (value : String)
deriving DecidableEq

/-- Python exceptions that can escape _validate_date: ValueError from the
datetime constructor receiving an out-of-range hour, and TypeError from
comparing None with a date. -/
inductive PyErr
  | valueErrorHour
  | typeErrorCmp
deriving DecidableEq

/-- The survey.question fields read by the three methods under study.
suggested_answer_count is len(self.suggested_answer_ids). -/
structure Question where
  id : Nat
  question_type : QType
  validation_required : Bool
  validation_error_msg : Option String
  validation_min_multiple_choice_option : Int
  validation_max_multiple_choice_option : Int
  suggested_answer_count : Nat
  validation_min_datetime_option : String
  validation_max_datetime_option : String
  validation_min_date_option : String
  validation_max_date_option : String
  validation_min_datetime : Option Int
  validation_max_datetime : Option Int
  validation_min_date : Option Int
  validation_max_date : Option Int
deriving DecidableEq

/-- The ambient clock and timezone: date_now is the local calendar date of
datetime.now(user_timezone) as a day number, tz_offset_seconds is
time_now.utcoffset().total_seconds(). The embedding assumes the server
clock runs in UTC, so a naive datetime stands for a UTC instant. -/
structure Env where
  date_now : Int
  tz_offset_seconds : Int
deriving DecidableEq

/-- The answer argument of _validate_choice: the website controller sends a
list of suggested answer ids, or a single id as a bare string. -/
inductive ChoiceAnswer
  | list (xs : List Nat)
  | scalar (s : String)
deriving DecidableEq

/-- Days since 1970-01-01 of a proleptic Gregorian calendar date
(Hinnant days-from-civil algorithm), modelling Python date arithmetic. -/
def daysFromCivil (y m d : Int) : Int :=
  let yy := if m ≤ 2 then y - 1 else y
  let era := Int.ediv yy 400
  let yoe := yy - era * 400
  let doy := Int.ediv (153 * (if 2 < m then m - 3 else m + 9) + 2) 5 + d - 1
  let doe := yoe * 365 + Int.ediv yoe 4 - Int.ediv yoe 100 + doy
  era * 146097 + doe - 719468

/-- Calendar date (year, month, day) of a day number since 1970-01-01
(Hinnant civil-from-days algorithm), modelling Python date formatting. -/
def civilFromDays (z0 : Int) : Int × Int × Int :=
  let z := z0 + 719468
  let era := Int.ediv z 146097
  let doe := z - era * 146097
  let yoe := Int.ediv (doe - Int.ediv doe 1460 + Int.ediv doe 36524 - Int.ediv doe 146096) 365
  let y := yoe + era * 400
  let doy := doe - (365 * yoe + Int.ediv yoe 4 - Int.ediv yoe 100)
  let mp := Int.ediv (5 * doy + 2) 153
  let d := doy - Int.ediv (153 * mp + 2) 5 + 1
  let m := if mp < 10 then mp + 3 else mp - 9
  (if m ≤ 2 then y + 1 else y, m, d)

/-- Number of days of a month, with Gregorian leap years. -/
def daysInMonth (y m : Nat) : Nat :=
  if m = 2 then (if y % 4 = 0 ∧ (y % 100 ≠ 0 ∨ y % 400 = 0) then 29 else 28)
  else if m = 4 ∨ m = 6 ∨ m = 9 ∨ m = 11 then 30 else 31

/-- Zero-padded two-digit rendering of a (non-negative) number. -/
def pad2 (n : Int) : String := (if n < 10 then "0" else "") ++ toString n

/-- Zero-padded four-digit rendering of a (non-negative) number. -/
def pad4 (n : Int) : String :=
  (if n < 10 then "000" else if n < 100 then "00" else if n < 1000 then "0" else "") ++ toString n

/-- str() of a Python date: ISO format YYYY-MM-DD. -/
def fmtDate (d : Int) : String :=
  let c := civilFromDays d
  pad4 c.1 ++ "-" ++ pad2 c.2.1 ++ "-" ++ pad2 c.2.2

/-- strftime of a Python datetime with format YYYY-MM-DD HH:MM:SS. -/
def fmtDatetime (s : Int) : String :=
  let d := Int.ediv s 86400
  let r := Int.emod s 86400
  fmtDate d ++ " " ++ pad2 (Int.ediv r 3600) ++ ":" ++ pad2 (Int.emod (Int.ediv r 60) 60)
    ++ ":" ++ pad2 (Int.emod r 60)

/-- str.split on a single separator character, on character lists (kept
structurally recursive so that concrete inputs evaluate). -/
def splitOnChar (sep : Char) (l : List Char) : List (List Char) :=
  match l with
  | [] => [[]]
  | x :: xs =>
    match splitOnChar sep xs with
    | [] => if x = sep then [[], []] else [[x]]
    | y :: ys => if x = sep then [] :: y :: ys else (x :: y) :: ys

/-- Accumulator pass of the decimal value of a digit run. -/
def digitsVal (l : List Char) (acc : Nat) : Option Nat :=
  match l with
  | [] => some acc
  | c :: cs => if c.isDigit then digitsVal cs (acc * 10 + (c.toNat - 48)) else none

/-- Decimal value of a nonempty all-digit character run, as the value of a
numeric strptime field. -/
def parseNatChars (l : List Char) : Option Nat :=
  match l with
  | [] => none
  | _ :: _ => digitsVal l 0

/-- Models strptime(value, "%Y-%m-%d").date(): a year, month and day in
decimal digits separated by dashes, rejecting out-of-range components. -/
def strptime_date_chars (l : List Char) : Option Int :=
  match (splitOnChar '-' l).map parseNatChars with
  | [some y, some m, some d] =>
    if 1 ≤ m ∧ m ≤ 12 ∧ 1 ≤ d ∧ d ≤ daysInMonth y m then
      some (daysFromCivil (Int.ofNat y) (Int.ofNat m) (Int.ofNat d))
    else none
  | _ => none

/-- Models strptime(value, "%Y-%m-%d %H:%M:%S"): a date part and a time
part separated by one space. -/
def strptime_datetime_chars (l : List Char) : Option Int :=
  match splitOnChar ' ' l with
  | [ds, ts] =>
    match strptime_date_chars ds with
    | none => none
    | some d =>
      match (splitOnChar ':' ts).map parseNatChars with
      | [some h, some mi, some sec] =>
        if h ≤ 23 ∧ mi ≤ 59 ∧ sec ≤ 59 then
          some (d * 86400 + Int.ofNat (h * 3600 + mi * 60 + sec))
        else none
      | _ => none
  | _ => none

/-- Models the external odoo.fields.Date.from_string helper: a falsy value
gives None, otherwise the value is truncated to 10 characters and parsed
with DATE_FORMAT; a parse failure raises ValueError (the error case). -/
def Date_from_string (s : String) : Except Unit (Option Int) :=
  if s.data = [] then Except.ok none
  else
    match strptime_date_chars (s.data.take 10) with
    | some d => Except.ok (some d)
    | none => Except.error ()

/-- Models the external odoo.fields.Datetime.from_string helper: a falsy
value gives None; a string longer than DATE_LENGTH (10) is parsed with
DATETIME_FORMAT, a shorter one with DATE_FORMAT at midnight; a parse
failure raises ValueError (the error case). -/
def Datetime_from_string (s : String) : Except Unit (Option Int) :=
  if s.data = [] then Except.ok none
  else if 10 < s.data.length then
    match strptime_datetime_chars s.data with
    | some v => Except.ok (some v)
    | none => Except.error ()
  else
    match strptime_date_chars s.data with
    | some d => Except.ok (some (d * 86400))
    | none => Except.error ()

/-- Lines 124-131: dateanswer = Datetime.from_string(answer) if is_datetime
else Date.from_string(answer). -/
def parse_answer (t : QType) (answer : String) : Except Unit (Option Int) :=
  if t = QType.datetime then Datetime_from_string answer else Date_from_string answer

/-- Lines 146-159: resolution of min_date in the datetime branch. The
"today" anchor gives fields.datetime(today.year, today.month, today.day) -
relativedelta(hours=diff_hour); an unrecognized truthy anchor is logged and
gives False; no anchor gives the stored validation_min_datetime. -/
def resolve_min_datetime (q : Question) (env : Env) (diff_hour : Int) :
    Option Int × Option LogMsg :=
  if q.validation_min_datetime_option ≠ "" then
    if q.validation_min_datetime_option = "today" then
      (some (env.date_now * 86400 - diff_hour * 3600), none)
    else
      (none, some (LogMsg.missing_min_datetime_option q.validation_min_datetime_option))
  else (q.validation_min_datetime, none)

/-- Lines 160-177: resolution of max_date and nb_second_delay in the
datetime branch. The "today" anchor sets nb_second_delay = 1 and calls
fields.datetime(tomorrow.year, tomorrow.month, tomorrow.day, -diff_hour) -
relativedelta(seconds=1); the datetime constructor raises ValueError unless
0 <= -diff_hour <= 23. An unrecognized truthy anchor is logged and gives
False; no anchor gives the stored validation_max_datetime. -/
def resolve_max_datetime (q : Question) (env : Env) (diff_hour : Int) :
    Except PyErr (Option Int × Option LogMsg × Int) :=
  if q.validation_max_datetime_option ≠ "" then
    if q.validation_max_datetime_option = "today" then
      if 0 ≤ -diff_hour ∧ -diff_hour ≤ 23 then
        Except.ok (some ((env.date_now + 1) * 86400 + (-diff_hour) * 3600 - 1), none, 1)
      else Except.error PyErr.valueErrorHour
    else
      Except.ok (none, some (LogMsg.missing_max_datetime_option q.validation_max_datetime_option), 0)
  else Except.ok (q.validation_max_datetime, none, 0)

/-- Lines 180-190: resolution of min_date in the date branch. The "today"
anchor gives date_now; an unrecognized truthy anchor is logged and gives
False; no anchor gives the stored validation_min_date. -/
def resolve_min_date (q : Question) (env : Env) : Option Int × Option LogMsg :=
  if q.validation_min_date_option ≠ "" then
    if q.validation_min_date_option = "today" then (some env.date_now, none)
    else (none, some (LogMsg.missing_min_date_option q.validation_min_date_option))
  else (q.validation_min_date, none)

/-- Lines 191-201: resolution of max_date in the date branch. -/
def resolve_max_date (q : Question) (env : Env) : Option Int × Option LogMsg :=
  if q.validation_max_date_option ≠ "" then
    if q.validation_max_date_option = "today" then (some env.date_now, none)
    else (none, some (LogMsg.missing_max_date_option q.validation_max_date_option))
  else (q.validation_max_date, none)

/-- self.validation_error_msg or generated: the custom message when one is
configured, the generated template otherwise. -/
def msgOr (custom : Option String) (generated : Msg) : Msg :=
  match custom with
  | some s => Msg.custom s
  | none => generated

/-- Lines 204-247: the comparison and message-building chain. A bound is
present when it is truthy (date and datetime objects are always truthy, so
presence is the some case). Comparing the None dateanswer of a falsy parsed
value against a present bound raises TypeError. In the date branch
(is_datetime false) the displayed min is min - 1 day and the displayed max
is max + 1 day; in the datetime branch the displayed value is the naive
bound converted with astimezone to the user timezone (adding the utcoffset,
the server clock being UTC) and rendered with strftime; the displayed max
adds back nb_second_delay seconds in the both-bounds branch but a constant
1 second in the max-only branch. -/
def validate_compare (qid : Nat) (validation_error_msg : Option String) (is_datetime : Bool)
    (tz_offset_seconds : Int) (nb_second_delay : Int)
    (min_date max_date dateanswer : Option Int) : Except PyErr (Option (Nat × Msg)) :=
  match min_date, max_date with
  | some mn, some mx =>
    match dateanswer with
    | none => Except.error PyErr.typeErrorCmp
    | some a =>
      if ¬ (mn ≤ a ∧ a ≤ mx) then
        let date_min_show :=
          if ¬ is_datetime then fmtDate (mn - 1)
          else fmtDatetime (mn + tz_offset_seconds)
        let date_max_show :=
          if ¬ is_datetime then fmtDate (mx + 1)
          else fmtDatetime (mx + nb_second_delay + tz_offset_seconds)
        Except.ok (some (qid, msgOr validation_error_msg (Msg.dateBetween date_min_show date_max_show)))
      else Except.ok none
  | some mn, none =>
    match dateanswer with
    | none => Except.error PyErr.typeErrorCmp
    | some a =>
      if ¬ (mn ≤ a) then
        let date_min_show :=
          if ¬ is_datetime then fmtDate (mn - 1)
          else fmtDatetime (mn + tz_offset_seconds)
        Except.ok (some (qid, msgOr validation_error_msg (Msg.dateAfter date_min_show)))
      else Except.ok none
  | none, some mx =>
    match dateanswer with
    | none => Except.error PyErr.typeErrorCmp
    | some a =>
      if ¬ (a ≤ mx) then
        let date_max_show :=
          if ¬ is_datetime then fmtDate (mx + 1)
          else fmtDatetime (mx + 1 + tz_offset_seconds)
        Except.ok (some (qid, msgOr validation_error_msg (Msg.dateBefore date_max_show)))
      else Except.ok none
  | none, none => Except.ok none

/-- Lines 122-247: _validate_date. Parse the answer per the question kind
("This is not a date" on ValueError), return the empty dict when validation
is not required, compute diff_hour = int(utcoffset / 3600) (truncation
toward zero, as Python int() on the float quotient), resolve the bounds of
the matching branch and run the comparison chain. The second component
collects the _logger.error calls. -/
def validate_date (q : Question) (env : Env) (answer : String) :
    Except PyErr (Option (Nat × Msg) × List LogMsg) :=
  match parse_answer q.question_type answer with
  | Except.error _ => Except.ok (some (q.id, Msg.notADate), [])
  | Except.ok dateanswer =>
    if q.validation_required = false then Except.ok (none, [])
    else
      let diff_hour : Int := Int.tdiv env.tz_offset_seconds 3600
      if q.question_type = QType.datetime then
        let rmin := resolve_min_datetime q env diff_hour
        match resolve_max_datetime q env diff_hour with
        | Except.error e => Except.error e
        | Except.ok (max_date, maxlog, nb_second_delay) =>
          match validate_compare q.id q.validation_error_msg true env.tz_offset_seconds
              nb_second_delay rmin.1 max_date dateanswer with
          | Except.error e => Except.error e
          | Except.ok r => Except.ok (r, rmin.2.toList ++ maxlog.toList)
      else
        let rmin := resolve_min_date q env
        let rmax := resolve_max_date q env
        match validate_compare q.id q.validation_error_msg false env.tz_offset_seconds
            0 rmin.1 rmax.1 dateanswer with
        | Except.error e => Except.error e
        | Except.ok r => Except.ok (r, rmin.2.toList ++ rmax.2.toList)

/-- Lines 77-120: _validate_choice. res is the dict returned by the super
call; it is returned unchanged when it is truthy, the kind is not
multiple_choice or validation is not required. Otherwise the answer count
is the list length (a bare scalar counting as 1), the -1 sentinels resolve
to 0 and to len(suggested_answer_ids), and an out-of-bounds count yields
the custom message or the exact-count or between template. -/
def validate_choice (q : Question) (res : Option (Nat × Msg)) (answer : ChoiceAnswer) :
    Option (Nat × Msg) :=
  if res.isSome = true ∨ q.question_type ≠ QType.multiple_choice ∨
      q.validation_required = false then res
  else
    let answer_count : Int :=
      match answer with
      | ChoiceAnswer.list xs => (xs.length : Int)
      | ChoiceAnswer.scalar _ => 1
    let min_value : Int :=
      if q.validation_min_multiple_choice_option = -1 then 0
      else q.validation_min_multiple_choice_option
    let max_value : Int :=
      if q.validation_max_multiple_choice_option = -1 then (q.suggested_answer_count : Int)
      else q.validation_max_multiple_choice_option
    if ¬ (min_value ≤ answer_count ∧ answer_count ≤ max_value) then
      if min_value = max_value then
        some (q.id, msgOr q.validation_error_msg (Msg.selectExact min_value answer_count))
      else
        some (q.id, msgOr q.validation_error_msg (Msg.selectBetween min_value max_value answer_count))
    else none

/-- Lines 65-75: _compute_validation_required forces the flag to False when
it is not already truthy or the kind is outside the supported list, and
leaves it unchanged otherwise. -/
def compute_validation_required (validation_required : Bool) (question_type : QType) : Bool :=
  if validation_required = false ∨
      question_type ∉ [QType.char_box, QType.numerical_box, QType.date,
        QType.datetime, QType.multiple_choice] then false
  else validation_required

/-- Wording of the claim: effectiveMin is the configured minimum if it is
non-negative and otherwise 0. -/
def specEffectiveMin (configured : Int) : Int := if 0 ≤ configured then configured else 0

/-- Wording of the claim: effectiveMax is the configured maximum if it is
non-negative and otherwise the total number of offered choices. -/
def specEffectiveMax (configured : Int) (total : Nat) : Int :=
  if 0 ≤ configured then configured else (total : Int)

/-- Wording of the claim: the answer count is the list length, or 1 for a
bare scalar. -/
def specAnswerCount (a : ChoiceAnswer) : Int :=
  match a with
  | ChoiceAnswer.list xs => (xs.length : Int)
  | ChoiceAnswer.scalar _ => 1

/-- Whether an Except value is a normal return rather than an exception. -/
def isOkE {ε α : Type} (e : Except ε α) : Bool :=
  match e with
  | Except.ok _ => true
  | Except.error _ => false

/-- Wording of the amended claim: the displayed minimum bound. -/
def shownMin (is_datetime : Bool) (tz_offset_seconds mn : Int) : String :=
  if is_datetime then fmtDatetime (mn + tz_offset_seconds) else fmtDate (mn - 1)

/-- Wording of the amended claim: the displayed maximum bound of the
both-bounds error branch, adding back nb_second_delay. -/
def shownMaxWithDelay (is_datetime : Bool) (tz_offset_seconds nb_second_delay mx : Int) : String :=
  if is_datetime then fmtDatetime (mx + nb_second_delay + tz_offset_seconds) else fmtDate (mx + 1)

/-- Wording of the amended claim: the displayed maximum bound of the
max-only error branch, always adding one second for a datetime. -/
def shownMaxPlusOne (is_datetime : Bool) (tz_offset_seconds mx : Int) : String :=
  if is_datetime then fmtDatetime (mx + 1 + tz_offset_seconds) else fmtDate (mx + 1)

/-- A datetime question with validation enabled, no explicit bounds and the
maximum anchored to "today". -/
def qMaxToday : Question :=
  { id := 2
    question_type := QType.datetime
    validation_required := true
    validation_error_msg := none
    validation_min_multiple_choice_option := -1
    validation_max_multiple_choice_option := -1
    suggested_answer_count := 0
    validation_min_datetime_option := ""
    validation_max_datetime_option := "today"
    validation_min_date_option := ""
    validation_max_date_option := ""
    validation_min_datetime := none
    validation_max_datetime := none
    validation_min_date := none
    validation_max_date := none }

/-- The same datetime question with the minimum also anchored to "today". -/
def qMinToday : Question :=
  { qMaxToday with validation_min_datetime_option := "today" }

/-- A date question with validation enabled and both bounds anchored to
"today". -/
def qDateToday : Question :=
  { qMaxToday with
    question_type := QType.date
    validation_max_datetime_option := ""
    validation_min_date_option := "today"
    validation_max_date_option := "today" }

/-- A datetime question with an unrecognized minimum anchor value and an
explicit stored maximum bound of 2024-06-01 00:00:00. -/
def qBogusMin : Question :=
  { qMaxToday with
    id := 5
    validation_min_datetime_option := "bogus"
    validation_max_datetime_option := ""
    validation_max_datetime := some (daysFromCivil 2024 6 1 * 86400) }

/-- qBogusMin with the defective minimum anchor removed, so that the
minimum bound is genuinely absent. -/
def qBogusMinCleared : Question :=
  { qBogusMin with validation_min_datetime_option := "" }

/-- qBogusMin with the maximum anchored to "today" instead of stored. -/
def qBogusMinMaxToday : Question :=
  { qBogusMin with validation_max_datetime_option := "today" }

/-- A datetime question with an explicit stored maximum bound of
2024-01-01 00:00:00 and no anchors. -/
def qExplicitMax : Question :=
  { qMaxToday with
    id := 7
    validation_max_datetime_option := ""
    validation_max_datetime := some (daysFromCivil 2024 1 1 * 86400) }

/-- A date question with validation not required. -/
def qNoValidation : Question :=
  { qMaxToday with
    id := 9
    question_type := QType.date
    validation_required := false
    validation_max_datetime_option := "" }

/-- A free-text question otherwise configured like qDateToday. -/
def qCharBox : Question :=
  { qDateToday with question_type := QType.char_box }

/-- A multiple-choice question requiring between 1 and 2 of 4 offered
choices. -/
def qChoice : Question :=
  { qMaxToday with
    id := 1
    question_type := QType.multiple_choice
    validation_max_datetime_option := ""
    validation_min_multiple_choice_option := 1
    validation_max_multiple_choice_option := 2
    suggested_answer_count := 4 }

/-- A multiple-choice question with a custom error message, bounds 1..2 and
a "today" minimum date anchor (the question reaches the date branch of
_validate_date as a non-datetime kind). -/
def qCustomMsg : Question :=
  { qChoice with
    validation_error_msg := some "Bad"
    validation_min_date_option := "today" }

/-- A clock on 2024-05-15 in a UTC+5 timezone. -/
def envPlus5 : Env := { date_now := daysFromCivil 2024 5 15, tz_offset_seconds := 5 * 3600 }

/-- A clock on 2024-05-15 in a UTC-3 timezone. -/
def envMinus3 : Env := { date_now := daysFromCivil 2024 5 15, tz_offset_seconds := -3 * 3600 }

/-- A clock on 2024-05-15 in UTC. -/
def envUTC : Env := { date_now := daysFromCivil 2024 5 15, tz_offset_seconds := 0 }

/-- Claim C2: for the datetime question whose maximum is anchored to
"today", _validate_date raises ValueError under a positive whole-hour UTC
offset (the datetime constructor receives the negative hour -diff_hour),
while under the zero and a negative offset every branch returns a dict. -/
theorem validate_date_raises_for_positive_utc_offset :
  validate_date qMaxToday envPlus5 "2024-05-15 10:00:00" = Except.error PyErr.valueErrorHour ∧
  isOkE (validate_date qMaxToday envUTC "2024-05-15 10:00:00") = true ∧
  isOkE (validate_date qMaxToday envMinus3 "2024-05-15 10:00:00") = true := by
  decide

/-- Claim C3: under the UTC-3 clock the "today" anchors resolve as the
claim states (datetime min = local midnight shifted backward by the offset,
datetime max = start of tomorrow shifted by the negated offset minus one
second, date min = date max = today with no adjustment), but under the
UTC+5 clock the datetime maximum resolution raises ValueError instead of
producing the claimed bound. -/
theorem today_anchor_resolution_values :
  resolve_min_datetime qMinToday envMinus3 (-3) =
    (some (daysFromCivil 2024 5 15 * 86400 - (-3) * 3600), none) ∧
  resolve_max_datetime qMinToday envMinus3 (-3) =
    Except.ok (some ((daysFromCivil 2024 5 15 + 1) * 86400 + -(-3) * 3600 - 1), none, 1) ∧
  resolve_max_datetime qMaxToday envPlus5 5 = Except.error PyErr.valueErrorHour ∧
  resolve_min_date qDateToday envMinus3 = (some (daysFromCivil 2024 5 15), none) ∧
  resolve_max_date qDateToday envMinus3 = (some (daysFromCivil 2024 5 15), none) := by
  decide

/-- Claim C5: an unrecognized minimum anchor is logged and resolved as
absent, it is not surfaced to the user, and validity is determined solely
by the remaining maximum bound (the result equals the result of the same
question with the defective side genuinely absent); yet when the opposite
maximum anchor is "today" under a positive UTC offset the call still
raises, through the defect of claim C2. -/
theorem unknown_anchor_fails_open :
  resolve_min_datetime qBogusMin envUTC 0 =
    (none, some (LogMsg.missing_min_datetime_option "bogus")) ∧
  validate_date qBogusMin envUTC "2024-07-01 00:00:00" =
    Except.ok (some (5, Msg.dateBefore "2024-06-01 00:00:01"),
      [LogMsg.missing_min_datetime_option "bogus"]) ∧
  validate_date qBogusMin envUTC "2024-05-01 00:00:00" =
    Except.ok (none, [LogMsg.missing_min_datetime_option "bogus"]) ∧
  (validate_date qBogusMin envUTC "2024-07-01 00:00:00").map Prod.fst =
    (validate_date qBogusMinCleared envUTC "2024-07-01 00:00:00").map Prod.fst ∧
  (validate_date qBogusMin envUTC "2024-05-01 00:00:00").map Prod.fst =
    (validate_date qBogusMinCleared envUTC "2024-05-01 00:00:00").map Prod.fst ∧
  validate_date qBogusMinMaxToday envPlus5 "2024-05-01 00:00:00" =
    Except.error PyErr.valueErrorHour := by
  decide

/-- Claim C7 counterexample: with an explicit datetime maximum bound (no
"today" anchor, so the subtracted delay is zero) and no minimum, an answer
above the maximum is reported with a displayed maximum of one second past
the bound, not the bound plus the zero delay that the claim prescribes. -/
theorem datetime_max_display_adds_second_without_delay :
  validate_date qExplicitMax envUTC "2024-06-01 00:00:00" =
    Except.ok (some (7, Msg.dateBefore "2024-01-01 00:00:01"), []) ∧
  "2024-01-01 00:00:01" ≠ fmtDatetime (daysFromCivil 2024 1 1 * 86400 + 0 + 0) := by
  decide

/-- Claim C9: after _compute_validation_required runs, the flag is True
exactly when it was already truthy and the kind is one of char_box,
numerical_box, date, datetime, multiple_choice; every other kind forces the
flag to False. -/
theorem validation_required_only_on_supported_kinds (vr : Bool) (qt : QType) :
  compute_validation_required vr qt = true ↔
    (vr = true ∧ qt ∈ [QType.char_box, QType.numerical_box, QType.date,
      QType.datetime, QType.multiple_choice]) := by
  cases vr <;> cases qt <;> decide

/-- Claim C6: with a successfully parsed answer the comparison chain never
raises, and it is valid exactly when the answer lies inclusively within the
present bounds: within [min, max] when both are present, at least min when
only the minimum is present, at most max when only the maximum is present,
and always when neither is present. -/
theorem compare_is_inclusive_on_both_ends (qid : Nat) (errmsg : Option String)
    (is_dt : Bool) (off delay : Int) (min_date max_date : Option Int) (a : Int) :
  isOkE (validate_compare qid errmsg is_dt off delay min_date max_date (some a)) = true ∧
  (validate_compare qid errmsg is_dt off delay min_date max_date (some a) = Except.ok none ↔
    (match min_date, max_date with
     | some mn, some mx => mn ≤ a ∧ a ≤ mx
     | some mn, none => mn ≤ a
     | none, some mx => a ≤ mx
     | none, none => True)) := by
  cases min_date <;> cases max_date <;>
    simp only [validate_compare, isOkE] <;>
    first
    | (split_ifs <;> simp_all)
    | simp_all

/-- Claim C4: when the answer does not parse as the question kind requires,
_validate_date returns the not-a-date error keyed by the question id
immediately, whether or not validation is required. -/
theorem parse_failure_returns_not_a_date (q : Question) (env : Env) (answer : String)
    (h : parse_answer q.question_type answer = Except.error ()) :
  validate_date q env answer = Except.ok (some (q.id, Msg.notADate), []) := by
  unfold validate_date
  rw [h]

/-- Concrete instance of parse_failure_returns_not_a_date: an unparseable
answer on a question with validation not required. -/
theorem parse_failure_returns_not_a_date_witness :
  parse_answer qNoValidation.question_type "not-a-date" = Except.error () ∧
  validate_date qNoValidation envUTC "not-a-date" =
    Except.ok (some (qNoValidation.id, Msg.notADate), []) :=
  ⟨by decide, parse_failure_returns_not_a_date qNoValidation envUTC "not-a-date" (by decide)⟩

/-- Changing only the question kind leaves date-branch minimum resolution
untouched, since it reads only the date-bound fields. -/
theorem resolve_min_date_ignores_kind (q : Question) (t : QType) (env : Env) :
  resolve_min_date { q with question_type := t } env = resolve_min_date q env := rfl

/-- Changing only the question kind leaves date-branch maximum resolution
untouched, since it reads only the date-bound fields. -/
theorem resolve_max_date_ignores_kind (q : Question) (t : QType) (env : Env) :
  resolve_max_date { q with question_type := t } env = resolve_max_date q env := rfl

/-- Claim C10: _validate_date never checks that the kind is date or
datetime; any non-datetime kind takes the plain-date parse and bound logic,
so it is validated exactly as the same question with the date kind. -/
theorem non_datetime_kind_validated_as_date (q : Question) (env : Env) (answer : String)
    (h : q.question_type ≠ QType.datetime) :
  validate_date q env answer = validate_date { q with question_type := QType.date } env answer := by
  simp [validate_date, parse_answer, h, resolve_min_date_ignores_kind, resolve_max_date_ignores_kind]

/-- Concrete instance of non_datetime_kind_validated_as_date: a char_box
question behaves as the date question. -/
theorem non_datetime_kind_validated_as_date_witness :
  qCharBox.question_type ≠ QType.datetime ∧
  validate_date qCharBox envUTC "2024-05-15" =
    validate_date { qCharBox with question_type := QType.date } envUTC "2024-05-15" :=
  ⟨by decide, non_datetime_kind_validated_as_date qCharBox envUTC "2024-05-15" (by decide)⟩

/-- Claim C1: for a multiple-choice question with validation required, no
prior failure from the super call and a maximum configuration in the
documented domain (a non-negative value or the -1 sentinel), the choice
validation accepts exactly when the resolved count lies between the
effective bounds of the claim. -/
theorem choice_valid_iff_count_within_effective_bounds (q : Question) (a : ChoiceAnswer)
    (hty : q.question_type = QType.multiple_choice)
    (hreq : q.validation_required = true)
    (hmax : -1 ≤ q.validation_max_multiple_choice_option) :
  validate_choice q none a = none ↔
    (specEffectiveMin q.validation_min_multiple_choice_option ≤ specAnswerCount a ∧
     specAnswerCount a ≤ specEffectiveMax q.validation_max_multiple_choice_option
       q.suggested_answer_count) := by
  cases a with
  | list xs =>
    simp only [validate_choice, hty, hreq, specEffectiveMin, specEffectiveMax, specAnswerCount]
    rw [if_neg (by simp)]
    split_ifs <;> simp <;> omega
  | scalar s =>
    simp only [validate_choice, hty, hreq, specEffectiveMin, specEffectiveMax, specAnswerCount]
    rw [if_neg (by simp)]
    split_ifs <;> simp <;> omega

/-- Concrete instance of choice_valid_iff_count_within_effective_bounds:
one selected answer with bounds 1..2. -/
theorem choice_valid_iff_count_within_effective_bounds_witness :
  qChoice.question_type = QType.multiple_choice ∧
  qChoice.validation_required = true ∧
  -1 ≤ qChoice.validation_max_multiple_choice_option ∧
  (validate_choice qChoice none (ChoiceAnswer.list [11]) = none ↔
    (specEffectiveMin qChoice.validation_min_multiple_choice_option ≤
        specAnswerCount (ChoiceAnswer.list [11]) ∧
     specAnswerCount (ChoiceAnswer.list [11]) ≤
        specEffectiveMax qChoice.validation_max_multiple_choice_option
          qChoice.suggested_answer_count)) :=
  ⟨rfl, rfl, by decide,
   choice_valid_iff_count_within_effective_bounds qChoice (ChoiceAnswer.list [11])
     rfl rfl (by decide)⟩

/-- Branch form of shownMin as it is built inside validate_compare. -/
theorem shownMin_eq_ite (is_dt : Bool) (off mn : Int) :
  shownMin is_dt off mn = if ¬ is_dt then fmtDate (mn - 1) else fmtDatetime (mn + off) := by
  cases is_dt <;> simp [shownMin]

/-- Branch form of shownMaxWithDelay as it is built inside validate_compare. -/
theorem shownMaxWithDelay_eq_ite (is_dt : Bool) (off delay mx : Int) :
  shownMaxWithDelay is_dt off delay mx =
    if ¬ is_dt then fmtDate (mx + 1) else fmtDatetime (mx + delay + off) := by
  cases is_dt <;> simp [shownMaxWithDelay]

/-- Branch form of shownMaxPlusOne as it is built inside validate_compare. -/
theorem shownMaxPlusOne_eq_ite (is_dt : Bool) (off mx : Int) :
  shownMaxPlusOne is_dt off mx =
    if ¬ is_dt then fmtDate (mx + 1) else fmtDatetime (mx + 1 + off) := by
  cases is_dt <;> simp [shownMaxPlusOne]

/-- Claim C7 amended: with no custom message, every generated out-of-range
message displays a plain-date minimum as min - 1 day and a plain-date
maximum as max + 1 day, and a datetime bound converted to the user timezone
and formatted; the displayed datetime maximum adds back nb_second_delay in
the both-bounds branch but always a constant one second in the max-only
branch. -/
theorem error_messages_display_adjusted_bounds (qid : Nat) (is_dt : Bool)
    (off delay : Int) (min_date max_date : Option Int) (a : Int) (p : Nat × Msg)
    (h : validate_compare qid none is_dt off delay min_date max_date (some a) =
      Except.ok (some p)) :
  p.1 = qid ∧
  ((∃ mn mx, min_date = some mn ∧ max_date = some mx ∧
      p.2 = Msg.dateBetween (shownMin is_dt off mn) (shownMaxWithDelay is_dt off delay mx)) ∨
   (∃ mn, min_date = some mn ∧ max_date = none ∧
      p.2 = Msg.dateAfter (shownMin is_dt off mn)) ∨
   (∃ mx, min_date = none ∧ max_date = some mx ∧
      p.2 = Msg.dateBefore (shownMaxPlusOne is_dt off mx))) := by
  cases min_date with
  | none =>
    cases max_date with
    | none => simp [validate_compare] at h
    | some mx =>
      simp only [validate_compare] at h
      by_cases hc : a ≤ mx
      · rw [if_neg (not_not_intro hc)] at h
        simp at h
      · rw [if_pos hc] at h
        simp only [msgOr, Except.ok.injEq, Option.some.injEq] at h
        subst h
        refine ⟨rfl, Or.inr (Or.inr ⟨mx, rfl, rfl, ?_⟩)⟩
        simp [shownMaxPlusOne_eq_ite]
  | some mn =>
    cases max_date with
    | none =>
      simp only [validate_compare] at h
      by_cases hc : mn ≤ a
      · rw [if_neg (not_not_intro hc)] at h
        simp at h
      · rw [if_pos hc] at h
        simp only [msgOr, Except.ok.injEq, Option.some.injEq] at h
        subst h
        refine ⟨rfl, Or.inr (Or.inl ⟨mn, rfl, rfl, ?_⟩)⟩
        simp [shownMin_eq_ite]
    | some mx =>
      simp only [validate_compare] at h
      by_cases hc : mn ≤ a ∧ a ≤ mx
      · rw [if_neg (not_not_intro hc)] at h
        simp at h
      · rw [if_pos hc] at h
        simp only [msgOr, Except.ok.injEq, Option.some.injEq] at h
        subst h
        refine ⟨rfl, Or.inl ⟨mn, mx, rfl, rfl, ?_⟩⟩
        simp [shownMin_eq_ite, shownMaxWithDelay_eq_ite]

/-- Concrete instance of error_messages_display_adjusted_bounds: a date
question with bounds 10 and 20 and the out-of-range answer 30. -/
theorem error_messages_display_adjusted_bounds_witness :
  validate_compare 1 none false 0 0 (some 10) (some 20) (some 30) =
    Except.ok (some (1, Msg.dateBetween (shownMin false 0 10) (shownMaxWithDelay false 0 0 20))) ∧
  (((1 : Nat), Msg.dateBetween (shownMin false 0 10) (shownMaxWithDelay false 0 0 20)).1 = 1 ∧
   ((∃ mn mx, (some 10 : Option Int) = some mn ∧ (some 20 : Option Int) = some mx ∧
       ((1 : Nat), Msg.dateBetween (shownMin false 0 10) (shownMaxWithDelay false 0 0 20)).2 =
         Msg.dateBetween (shownMin false 0 mn) (shownMaxWithDelay false 0 0 mx)) ∨
    (∃ mn, (some 10 : Option Int) = some mn ∧ (some 20 : Option Int) = none ∧
       ((1 : Nat), Msg.dateBetween (shownMin false 0 10) (shownMaxWithDelay false 0 0 20)).2 =
         Msg.dateAfter (shownMin false 0 mn)) ∨
    (∃ mx, (some 10 : Option Int) = none ∧ (some 20 : Option Int) = some mx ∧
       ((1 : Nat), Msg.dateBetween (shownMin false 0 10) (shownMaxWithDelay false 0 0 20)).2 =
         Msg.dateBefore (shownMaxPlusOne false 0 mx)))) :=
  ⟨by decide,
   error_messages_display_adjusted_bounds 1 false 0 0 (some 10) (some 20) 30
     (1, Msg.dateBetween (shownMin false 0 10) (shownMaxWithDelay false 0 0 20)) (by decide)⟩

/-- With a custom message configured, any failing result of the comparison
chain carries exactly that message keyed by the question id. -/
theorem compare_custom_msg (qid : Nat) (m : String) (is_dt : Bool) (off delay : Int)
    (mn mx da : Option Int) (p : Nat × Msg)
    (h : validate_compare qid (some m) is_dt off delay mn mx da = Except.ok (some p)) :
  p = (qid, Msg.custom m) := by
  cases mn <;> cases mx <;> cases da <;>
    simp only [validate_compare, msgOr] at h <;>
    first
    | (split_ifs at h <;> simp_all)
    | simp_all

/-- Claim C8: with a custom error message configured, every failing choice
validation returns exactly that message keyed by the question id, and every
result of _validate_date other than the parse-failure message is also
exactly that message keyed by the question id. -/
theorem custom_error_message_overrides (q : Question) (env : Env) (a : ChoiceAnswer)
    (answer : String) (m : String) (hmsg : q.validation_error_msg = some m) :
  (∀ p, validate_choice q none a = some p → p = (q.id, Msg.custom m)) ∧
  (∀ p logs, validate_date q env answer = Except.ok (some p, logs) →
    p.1 = q.id ∧ (p.2 = Msg.custom m ∨ p.2 = Msg.notADate)) := by
  constructor
  · intro p hp
    simp only [validate_choice, hmsg, msgOr] at hp
    split_ifs at hp <;> simp_all
  · intro p logs hvd
    simp only [validate_date] at hvd
    split at hvd
    · simp only [Except.ok.injEq, Prod.mk.injEq, Option.some.injEq] at hvd
      obtain ⟨h1, h2⟩ := hvd
      subst h1
      exact ⟨rfl, Or.inr rfl⟩
    · split at hvd
      · simp at hvd
      · split at hvd
        · split at hvd
          · simp at hvd
          · split at hvd
            · simp at hvd
            · rename_i r heq
              simp only [Except.ok.injEq, Prod.mk.injEq] at hvd
              obtain ⟨hr, hl⟩ := hvd
              subst hr
              rw [hmsg] at heq
              have hpp := compare_custom_msg q.id m true env.tz_offset_seconds _ _ _ _ p heq
              subst hpp
              exact ⟨rfl, Or.inl rfl⟩
        · split at hvd
          · simp at hvd
          · rename_i r heq
            simp only [Except.ok.injEq, Prod.mk.injEq] at hvd
            obtain ⟨hr, hl⟩ := hvd
            subst hr
            rw [hmsg] at heq
            have hpp := compare_custom_msg q.id m false env.tz_offset_seconds _ _ _ _ p heq
            subst hpp
            exact ⟨rfl, Or.inl rfl⟩

/-- Concrete instance of custom_error_message_overrides: a multiple-choice
question with the custom message configured. -/
theorem custom_error_message_overrides_witness :
  qCustomMsg.validation_error_msg = some "Bad" ∧
  ((∀ p, validate_choice qCustomMsg none (ChoiceAnswer.list []) = some p →
      p = (qCustomMsg.id, Msg.custom "Bad")) ∧
   (∀ p logs, validate_date qCustomMsg envUTC "2020-01-01" = Except.ok (some p, logs) →
      p.1 = qCustomMsg.id ∧ (p.2 = Msg.custom "Bad" ∨ p.2 = Msg.notADate))) :=
  ⟨rfl, custom_error_message_overrides qCustomMsg envUTC (ChoiceAnswer.list [])
    "2020-01-01" "Bad" rfl⟩

end Survey
